import Mathlib

/-
  Verification of the Daily-Intake-Tracker repository.

  Shallow embedding of the data model and the sync/aggregation logic of the
  application.  Numeric values carried by JavaScript numbers are modelled as
  rationals; the special values NaN and Infinity that can arise from division
  by zero are modelled explicitly by the JSNum type where they matter.

  Source files referenced below:
  - App.tsx, Google-Sheets variant        (src/unnamed/part_000)
  - App.tsx, Firebase variant             (src/unnamed/part_001)
  - DailyTracker.tsx                      (src/unnamed/part_005)
  - googleSheetsService.ts                (src/src/services/googleSheetsService.ts)
  - timezone.ts                           (src/src/utils/timezone.ts)
  - types/index.ts                        (src/src/types/index.ts)
-/

/-- JavaScript Math.round: rounds half toward positive infinity. -/
def jsRound (x : ℚ) : ℤ := ⌊x + 1 / 2⌋

/-- jsRound agrees with Mathlib round, which is also floor of x + 1/2. -/
theorem jsRound_eq_round (x : ℚ) : jsRound x = round x := (round_eq x).symm

/-- A JavaScript number as produced by arithmetic on finite inputs:
either finite, an infinity, or NaN. -/
inductive JSNum where
  | nan : JSNum
  | posInf : JSNum
  | negInf : JSNum
  | fin : ℚ → JSNum
deriving DecidableEq

/-- JavaScript division restricted to the shapes the program produces:
both operands finite.  Division of a finite number by zero yields a signed
infinity, and 0 / 0 yields NaN.  (Non-finite operands do not occur at the
call sites modelled here; the catch-all branch is unused.) -/
def jsDiv : JSNum → JSNum → JSNum
  | .fin a, .fin b =>
      if b = 0 then (if 0 < a then .posInf else if a < 0 then .negInf else .nan)
      else .fin (a / b)
  | _, _ => .nan

/-- JavaScript multiplication of a number by a finite constant. -/
def jsMulFin : JSNum → ℚ → JSNum
  | .nan, _ => .nan
  | .posInf, c => if 0 < c then .posInf else if c < 0 then .negInf else .nan
  | .negInf, c => if 0 < c then .negInf else if c < 0 then .posInf else .nan
  | .fin a, c => .fin (a * c)

/-- JavaScript Math.min on two numbers: NaN propagates, otherwise the
usual order with infinities at the extremes. -/
def jsMin : JSNum → JSNum → JSNum
  | .nan, _ => .nan
  | _, .nan => .nan
  | .negInf, _ => .negInf
  | _, .negInf => .negInf
  | .posInf, y => y
  | x, .posInf => x
  | .fin a, .fin b => .fin (min a b)

/-- Food catalog item (types/index.ts, interface Food). -/
structure Food where
  id : String
  name : String
  calories : ℚ
  protein : ℚ
  carbs : ℚ
  fat : ℚ
deriving DecidableEq

/-- One logged consumption (types/index.ts, interface FoodLog).
The timestamp is modelled as whole minutes since the epoch. -/
structure FoodLog where
  id : String
  foodId : String
  foodName : String
  quantity : ℚ
  calories : ℚ
  protein : ℚ
  carbs : ℚ
  fat : ℚ
  timestamp : ℕ
deriving DecidableEq

/-- Daily macro goals (types/index.ts, interface MacroGoals). -/
structure MacroGoals where
  calories : ℚ
  protein : ℚ
  carbs : ℚ
  fat : ℚ
deriving DecidableEq

/-- Macro totals for a day (shape of the reduce accumulator in
DailyTracker.tsx lines 33-41 and App.tsx lines 102-110). -/
structure Totals where
  calories : ℚ
  protein : ℚ
  carbs : ℚ
  fat : ℚ
deriving DecidableEq

/-- The demo food catalog (App.tsx Google-Sheets variant, lines 8-17). -/
def DEMO_FOODS : List Food :=
  [ ⟨"1", "Chicken Breast", 165, 31, 0, 3.6⟩,
    ⟨"2", "Rice", 130, 2.7, 28, 0.3⟩,
    ⟨"3", "Egg", 155, 13, 1.1, 11⟩,
    ⟨"4", "Apple", 52, 0.3, 14, 0.2⟩,
    ⟨"5", "Broccoli", 34, 3.7, 7, 0.4⟩,
    ⟨"6", "Salmon", 208, 20, 0, 13⟩,
    ⟨"7", "Banana", 89, 1.1, 23, 0.3⟩,
    ⟨"8", "Milk", 42, 3.4, 5, 1⟩ ]

/-- The default goals record (App.tsx lines 19-24). -/
def DEFAULT_GOALS : MacroGoals := ⟨2500, 150, 250, 80⟩

/-- The newLog object built by handleAddLog (App.tsx lines 81-91, identical
in both variants): calories is Math.round(food.calories * quantity), each
macro is Math.round(food.macro * quantity * 10) / 10. -/
def mkNewLog (newId : String) (food : Food) (quantity : ℚ) (ts : ℕ) : FoodLog :=
  { id := newId
    foodId := food.id
    foodName := food.name
    quantity := quantity
    calories := (jsRound (food.calories * quantity) : ℚ)
    protein := (jsRound (food.protein * quantity * 10) : ℚ) / 10
    carbs := (jsRound (food.carbs * quantity * 10) : ℚ) / 10
    fat := (jsRound (food.fat * quantity * 10) : ℚ) / 10
    timestamp := ts }

/-- handleAddLog (App.tsx lines 77-94): looks the food up by id; if absent
the store is unchanged, otherwise the new log is prepended. -/
def handleAddLog (foods : List Food) (logs : List FoodLog) (foodId : String)
    (quantity : ℚ) (newId : String) (ts : ℕ) : List FoodLog :=
  match foods.find? (fun f => f.id == foodId) with
  | none => logs
  | some food => mkNewLog newId food quantity ts :: logs

/-- The totals reduce (DailyTracker.tsx lines 33-41, also App.tsx
lines 102-110): left fold with all-zero initial accumulator. -/
def totalsOf (logs : List FoodLog) : Totals :=
  logs.foldl
    (fun acc log =>
      { calories := acc.calories + log.calories
        protein := acc.protein + log.protein
        carbs := acc.carbs + log.carbs
        fat := acc.fat + log.fat })
    ⟨0, 0, 0, 0⟩

/-- caloriePercent in DailyTracker.tsx line 43:
Math.min((totals.calories / goals.calories) * 100, 100), with NO guard
against a zero or negative goal, so division by zero can occur. -/
def caloriePercentTracker (totalCalories goalCalories : ℚ) : JSNum :=
  jsMin (jsMulFin (jsDiv (.fin totalCalories) (.fin goalCalories)) 100) (.fin 100)

/-- caloriePercent in handleDeleteLog (App.tsx Google-Sheets variant,
line 111): goals.calories > 0 ? Math.min((totals.calories / goals.calories)
* 100, 100) : 0.  The guard makes all arithmetic finite. -/
def caloriePercentGuarded (totalCalories goalCalories : ℚ) : ℚ :=
  if 0 < goalCalories then min (totalCalories / goalCalories * 100) 100 else 0

/-- isOverGoal (DailyTracker.tsx line 44): totals.calories > goals.calories. -/
def isOverGoal (totalCalories goalCalories : ℚ) : Bool :=
  decide (goalCalories < totalCalories)

/-- Claim C2: with goals calories 2500, logging quantity 1 of the food with
macros 165/31/0/3.6 (Chicken Breast, id 1) and quantity 2 of the food with
macros 130/2.7/28/0.3 (Rice, id 2) through handleAddLog yields the daily
aggregate calories 425, protein 36.4, carbs 56, fat 4.2, a calorie-goal
percentage of 17, and overGoal false. -/
theorem claim_C2_scenario_aggregate :
    totalsOf (handleAddLog DEMO_FOODS
        (handleAddLog DEMO_FOODS [] "1" 1 "a" 0) "2" 2 "b" 1)
      = ⟨425, 36.4, 56, 4.2⟩
    ∧ caloriePercentTracker
        (totalsOf (handleAddLog DEMO_FOODS
          (handleAddLog DEMO_FOODS [] "1" 1 "a" 0) "2" 2 "b" 1)).calories
        DEFAULT_GOALS.calories = JSNum.fin 17
    ∧ isOverGoal
        (totalsOf (handleAddLog DEMO_FOODS
          (handleAddLog DEMO_FOODS [] "1" 1 "a" 0) "2" 2 "b" 1)).calories
        DEFAULT_GOALS.calories = false := by
  have htot : totalsOf (handleAddLog DEMO_FOODS
      (handleAddLog DEMO_FOODS [] "1" 1 "a" 0) "2" 2 "b" 1)
      = ⟨425, 36.4, 56, 4.2⟩ := by
    norm_num [totalsOf, handleAddLog, mkNewLog, DEMO_FOODS, jsRound, List.find?,
      Totals.mk.injEq, (by decide : (("1" : String) == "2") = false),
      (by decide : (("2" : String) == "2") = true),
      (by decide : (("1" : String) == "1") = true)]
  refine ⟨htot, ?_, ?_⟩
  · rw [htot]
    norm_num [caloriePercentTracker, jsDiv, jsMulFin, jsMin, DEFAULT_GOALS]
  · rw [htot]
    norm_num [isOverGoal, DEFAULT_GOALS]

/-- Claim C1 counterexample: take the entry set obtained by logging one
Chicken Breast (total calories 165) and a goals record whose calorie goal is
0 (so goals.calories is not positive).  The Daily Tracker percentage
(DailyTracker.tsx line 43) divides by zero: the result is 100, obtained by
clamping Infinity with Math.min, not the 0 the claim requires. -/
theorem claim_C1_counterexample :
    (0 : ℚ) ≤ 0
    ∧ caloriePercentTracker
        (totalsOf (handleAddLog DEMO_FOODS [] "1" 1 "a" 0)).calories 0
        = JSNum.fin 100
    ∧ JSNum.fin 100 ≠ JSNum.fin (0 : ℚ) := by
  have htot : (totalsOf (handleAddLog DEMO_FOODS [] "1" 1 "a" 0)).calories = 165 := by
    norm_num [totalsOf, handleAddLog, mkNewLog, DEMO_FOODS, jsRound, List.find?,
      (by decide : (("1" : String) == "1") = true)]
  refine ⟨le_rfl, ?_, by norm_num⟩
  rw [htot]
  norm_num [caloriePercentTracker, jsDiv, jsMulFin, jsMin]

/-- Claim C1 amended: for a non-positive calorie goal the guarded delete-path
computation (App.tsx line 111) does return 0, but the Daily Tracker display
computation (DailyTracker.tsx line 43) is unguarded: for a zero goal it
yields 100 when the total is positive (Infinity clamped by Math.min), NaN
when the total is zero, and negative Infinity when the total is negative;
for a strictly negative goal it yields min(100 * total / goal, 100). -/
theorem claim_C1_amended (t g : ℚ) (hg : g ≤ 0) :
    caloriePercentGuarded t g = 0
    ∧ (g = 0 → caloriePercentTracker t g =
        (if 0 < t then JSNum.fin 100 else if t = 0 then JSNum.nan else JSNum.negInf))
    ∧ (g < 0 → caloriePercentTracker t g = JSNum.fin (min (t / g * 100) 100)) := by
  refine ⟨?_, ?_, ?_⟩
  · rw [caloriePercentGuarded, if_neg (not_lt.mpr hg)]
  · intro h0
    subst h0
    by_cases ht : 0 < t
    · simp only [caloriePercentTracker, jsDiv, if_pos rfl, if_pos ht]
      norm_num [jsMulFin, jsMin, ht]
    · by_cases ht0 : t = 0
      · subst ht0
        norm_num [caloriePercentTracker, jsDiv, jsMulFin, jsMin]
      · have htneg : t < 0 := lt_of_le_of_ne (not_lt.mp ht) ht0
        simp only [caloriePercentTracker, jsDiv, if_pos rfl, if_neg ht, if_pos htneg]
        norm_num [jsMulFin, jsMin, ht, ht0, htneg]
  · intro hlt
    have hne : g ≠ 0 := ne_of_lt hlt
    simp [caloriePercentTracker, jsDiv, jsMulFin, jsMin, hne]

/-- Witness for claim C1 amended at total 165 and goal 0. -/
theorem claim_C1_amended_witness :
    caloriePercentGuarded 165 0 = 0 ∧ caloriePercentTracker 165 0 = JSNum.fin 100 := by
  have h := claim_C1_amended 165 0 le_rfl
  refine ⟨h.1, ?_⟩
  have h2 := h.2.1 rfl
  rw [if_pos (by norm_num : (0 : ℚ) < 165)] at h2
  exact h2

/-- The mutations the App component applies to its two stores (App.tsx,
both variants): handleAddLog, handleDeleteLog (its setLogs part),
handleAddFood, handleEditFood, handleDeleteFood. -/
inductive AppOp where
  | addLog (foodId : String) (quantity : ℚ) (newId : String) (ts : ℕ)
  | deleteLog (logId : String)
  | addFood (f : Food)
  | editFood (id : String) (f : Food)
  | deleteFood (id : String)

/-- One App mutation applied to the food catalog and the log store
(App.tsx lines 77-157).  addLog prepends a freshly built log; deleteLog
filters by id; the three food operations touch only the catalog and leave
every stored log untouched. -/
def applyOp (foods : List Food) (logs : List FoodLog) : AppOp → List Food × List FoodLog
  | .addLog fid q nid ts =>
      match foods.find? (fun f => f.id == fid) with
      | none => (foods, logs)
      | some food => (foods, mkNewLog nid food q ts :: logs)
  | .deleteLog lid => (foods, logs.filter (fun l => l.id != lid))
  | .addFood f => (foods ++ [f], logs)
  | .editFood i f => (foods.map (fun g => if g.id == i then { f with id := i } else g), logs)
  | .deleteFood i => (foods.filter (fun g => g.id != i), logs)

/-- Claim C3: the log entry created on add carries calories equal to the
food calories times quantity rounded to the nearest integer, and each macro
equal to the food value times quantity rounded to one decimal place; and no
App mutation ever modifies an existing entry: every log present after a
mutation is either an untouched pre-existing entry or the freshly created
one (in particular, editing or deleting a food never recomputes a log). -/
theorem claim_C3_log_fields_frozen (f : Food) (q : ℚ) (i : String) (t : ℕ)
    (hq : 0 < q) (foods : List Food) (logs : List FoodLog) :
    ((mkNewLog i f q t).calories = (round (f.calories * q) : ℚ)
      ∧ (mkNewLog i f q t).protein = (round (f.protein * q * 10) : ℚ) / 10
      ∧ (mkNewLog i f q t).carbs = (round (f.carbs * q * 10) : ℚ) / 10
      ∧ (mkNewLog i f q t).fat = (round (f.fat * q * 10) : ℚ) / 10)
    ∧ (∀ op l, l ∈ (applyOp foods logs op).2 →
        l ∈ logs ∨ ∃ fid q2 nid ts f2, op = AppOp.addLog fid q2 nid ts
          ∧ foods.find? (fun g => g.id == fid) = some f2
          ∧ l = mkNewLog nid f2 q2 ts) := by
  constructor
  · refine ⟨?_, ?_, ?_, ?_⟩ <;> simp [mkNewLog, jsRound_eq_round]
  · intro op l hl
    cases op with
    | addLog fid q2 nid ts =>
        simp only [applyOp] at hl
        rcases hfind : foods.find? (fun g => g.id == fid) with _ | f2
        · rw [hfind] at hl
          exact Or.inl hl
        · rw [hfind] at hl
          rcases List.mem_cons.mp hl with h | h
          · exact Or.inr ⟨fid, q2, nid, ts, f2, rfl, hfind, h⟩
          · exact Or.inl h
    | deleteLog lid =>
        simp only [applyOp] at hl
        exact Or.inl (List.mem_of_mem_filter hl)
    | addFood f2 => exact Or.inl hl
    | editFood i2 f2 => exact Or.inl hl
    | deleteFood i2 => exact Or.inl hl

/-- Witness for claim C3 at Chicken Breast with quantity 1. -/
theorem claim_C3_witness :
    (0 : ℚ) < 1
    ∧ (mkNewLog "a" ⟨"1", "Chicken Breast", 165, 31, 0, 3.6⟩ 1 0).calories
        = (round ((165 : ℚ) * 1) : ℚ) :=
  ⟨by norm_num,
    (claim_C3_log_fields_frozen ⟨"1", "Chicken Breast", 165, 31, 0, 3.6⟩ 1 "a" 0
      (by norm_num) DEMO_FOODS []).1.1⟩

/-- The observable outcome of handleDeleteLog (App.tsx Google-Sheets
variant, lines 97-141): the filtered store, the recomputed totals, the
guarded percentage, and the saveDailyData write it unconditionally issues
with the updated entry list and totals.  (The saveDailySummary and
saveStatistics calls of the same handler are not modelled.) -/
structure DeleteResult where
  logs : List FoodLog
  totals : Totals
  caloriePercent : ℚ
  dailyDataWrites : List (List FoodLog × Totals)
deriving DecidableEq

/-- handleDeleteLog (App.tsx Google-Sheets variant, lines 97-141). -/
def handleDeleteLog (logs : List FoodLog) (goals : MacroGoals) (logId : String) :
    DeleteResult :=
  let updatedLogs := logs.filter (fun l => l.id != logId)
  let totals := totalsOf updatedLogs
  { logs := updatedLogs
    totals := totals
    caloriePercent := caloriePercentGuarded totals.calories goals.calories
    dailyDataWrites := [(updatedLogs, totals)] }

/-- Claim C6: deleting the only two entries of a day (two handleDeleteLog
calls) leaves the local store empty with all-zero totals, and the second
delete issues exactly one saveDailyData write whose entry list is empty. -/
theorem claim_C6_delete_all_entries (e1 e2 : FoodLog) (g : MacroGoals)
    (h : e1.id ≠ e2.id) :
    (handleDeleteLog [e1, e2] g e1.id).logs = [e2]
    ∧ (handleDeleteLog (handleDeleteLog [e1, e2] g e1.id).logs g e2.id).logs = []
    ∧ (handleDeleteLog (handleDeleteLog [e1, e2] g e1.id).logs g e2.id).totals
        = ⟨0, 0, 0, 0⟩
    ∧ (handleDeleteLog (handleDeleteLog [e1, e2] g e1.id).logs g e2.id).dailyDataWrites
        = [([], ⟨0, 0, 0, 0⟩)] := by
  have hne : (e2.id != e1.id) = true := bne_iff_ne.mpr (Ne.symm h)
  have h1 : (handleDeleteLog [e1, e2] g e1.id).logs = [e2] := by
    simp [handleDeleteLog, List.filter, bne_self_eq_false, hne]
  refine ⟨h1, ?_, ?_, ?_⟩ <;> rw [h1] <;>
    simp [handleDeleteLog, List.filter, bne_self_eq_false, totalsOf]

/-- Witness for claim C6 at two concrete entries with distinct ids. -/
theorem claim_C6_witness :
    (handleDeleteLog
        [⟨"x", "1", "A", 1, 100, 1, 1, 1, 0⟩, ⟨"y", "2", "B", 1, 200, 2, 2, 2, 0⟩]
        DEFAULT_GOALS "x").logs = [⟨"y", "2", "B", 1, 200, 2, 2, 2, 0⟩]
    ∧ (handleDeleteLog
        (handleDeleteLog
          [⟨"x", "1", "A", 1, 100, 1, 1, 1, 0⟩, ⟨"y", "2", "B", 1, 200, 2, 2, 2, 0⟩]
          DEFAULT_GOALS "x").logs DEFAULT_GOALS "y").logs = []
    ∧ (handleDeleteLog
        (handleDeleteLog
          [⟨"x", "1", "A", 1, 100, 1, 1, 1, 0⟩, ⟨"y", "2", "B", 1, 200, 2, 2, 2, 0⟩]
          DEFAULT_GOALS "x").logs DEFAULT_GOALS "y").totals = ⟨0, 0, 0, 0⟩
    ∧ (handleDeleteLog
        (handleDeleteLog
          [⟨"x", "1", "A", 1, 100, 1, 1, 1, 0⟩, ⟨"y", "2", "B", 1, 200, 2, 2, 2, 0⟩]
          DEFAULT_GOALS "x").logs DEFAULT_GOALS "y").dailyDataWrites
        = [([], ⟨0, 0, 0, 0⟩)] :=
  claim_C6_delete_all_entries
    ⟨"x", "1", "A", 1, 100, 1, 1, 1, 0⟩ ⟨"y", "2", "B", 1, 200, 2, 2, 2, 0⟩
    DEFAULT_GOALS (by decide)

/-- State of the debounced sync dispatcher in DailyTracker.tsx
(lines 30-31 and 47-98).  pending models the payload captured by the
currently scheduled timer (syncTimeoutRef), lastSync models lastSyncRef
(the JSON fingerprint is modelled by the entry list itself, which the
stringification determines injectively; the initial empty-string value
matches no list and is modelled by none), issued collects the
saveDailyData payloads dispatched so far, and acked collects the payloads
whose writes have been acknowledged by the backend. -/
structure SyncState where
  pending : Option (List FoodLog)
  lastSync : Option (List FoodLog)
  issued : List (List FoodLog)
  acked : List (List FoodLog)
deriving DecidableEq

/-- The dispatcher before any mutation: no timer, empty lastSyncRef,
nothing dispatched. -/
def initialSync : SyncState := ⟨none, none, [], []⟩

/-- One log-store mutation as seen by the sync effect (DailyTracker.tsx
lines 47-98, assuming the service is configured, as App.tsx guarantees by
initializing it on mount).  The cleanup of the previous effect run cancels
any scheduled timer; the new body then returns early when the log list is
empty (line 48) or when its fingerprint equals lastSyncRef (lines 54-56),
and otherwise schedules a timer carrying the current list (lines 64-91). -/
def mutate (s : SyncState) (logs : List FoodLog) : SyncState :=
  if logs = [] then { s with pending := none }
  else if s.lastSync = some logs then { s with pending := none }
  else { s with pending := some logs }

/-- The debounce window elapsing: the timer callback (DailyTracker.tsx
lines 64-91) first stores the fingerprint into lastSyncRef and then
dispatches saveDailyData with the captured list; the call is not awaited,
so the write is issued but not yet acknowledged. -/
def fire (s : SyncState) : SyncState :=
  match s.pending with
  | none => s
  | some l =>
      { pending := none
        lastSync := some l
        issued := s.issued ++ [l]
        acked := s.acked }

/-- The backend acknowledging a previously issued write. -/
def ackWrite (s : SyncState) (l : List FoodLog) : SyncState :=
  { s with acked := s.acked ++ [l] }

/-- A sequence of mutations arriving before the debounce window elapses. -/
def mutateAll (s : SyncState) (ms : List (List FoodLog)) : SyncState :=
  ms.foldl mutate s

/-- A mutation never changes lastSyncRef, nor the dispatched or
acknowledged writes; only the scheduled timer. -/
theorem mutate_keeps (s : SyncState) (m : List FoodLog) :
    (mutate s m).lastSync = s.lastSync ∧ (mutate s m).issued = s.issued
      ∧ (mutate s m).acked = s.acked := by
  unfold mutate
  split
  · exact ⟨rfl, rfl, rfl⟩
  · split
    · exact ⟨rfl, rfl, rfl⟩
    · exact ⟨rfl, rfl, rfl⟩

/-- mutateAll changes neither lastSyncRef nor the write lists. -/
theorem mutateAll_keeps (ms : List (List FoodLog)) (s : SyncState) :
    (mutateAll s ms).lastSync = s.lastSync ∧ (mutateAll s ms).issued = s.issued
      ∧ (mutateAll s ms).acked = s.acked := by
  induction ms generalizing s with
  | nil => exact ⟨rfl, rfl, rfl⟩
  | cons m ms ih =>
      have h1 := mutate_keeps s m
      have h2 := ih (mutate s m)
      simp only [mutateAll, List.foldl_cons] at h2 ⊢
      exact ⟨h2.1.trans h1.1, h2.2.1.trans h1.2.1, h2.2.2.trans h1.2.2⟩

/-- After a run of mutations, the scheduled timer carries exactly the last
mutation, unless that last state is empty or matches lastSyncRef. -/
theorem mutateAll_pending (s : SyncState) (ms : List (List FoodLog))
    (m : List FoodLog) :
    (mutateAll s (ms ++ [m])).pending =
      if m = [] ∨ s.lastSync = some m then none else some m := by
  have happ : mutateAll s (ms ++ [m]) = mutate (mutateAll s ms) m := by
    simp [mutateAll, List.foldl_append]
  have hls := (mutateAll_keeps ms s).1
  rw [happ]
  unfold mutate
  rcases eq_or_ne m [] with hm | hm
  · simp [hm]
  · rw [hls]
    rcases eq_or_ne s.lastSync (some m) with hl | hl
    · simp [hm, hl]
    · simp [hm, hl]

/-- Claim C4 amended: any run of mutations within the debounce window
issues no write while the window is open, and when the window elapses
exactly one write is issued, carrying exactly the final state - provided
the final state is non-empty and its fingerprint differs from the last
dispatched one (the effect skips empty log lists and unchanged
fingerprints, in which case no write at all is issued). -/
theorem claim_C4_debounce_coalescing (s : SyncState) (ms : List (List FoodLog))
    (m : List FoodLog) (hne : m ≠ []) (hdiff : s.lastSync ≠ some m) :
    (mutateAll s (ms ++ [m])).issued = s.issued
    ∧ (fire (mutateAll s (ms ++ [m]))).issued = s.issued ++ [m]
    ∧ (fire (mutateAll s (ms ++ [m]))).lastSync = some m := by
  have hk := mutateAll_keeps (ms ++ [m]) s
  have hpend : (mutateAll s (ms ++ [m])).pending = some m := by
    rw [mutateAll_pending s ms m]
    simp [hne, hdiff]
  refine ⟨hk.2.1, ?_, ?_⟩
  · unfold fire
    rw [hpend]
    simpa using hk.2.1
  · unfold fire
    rw [hpend]

/-- Witness for claim C4 amended: one mutation to a one-entry store from
the initial dispatcher state. -/
theorem claim_C4_witness :
    (mutateAll initialSync ([] ++ [[⟨"a", "1", "Chicken Breast", 1, 165, 31, 0, 3.6, 0⟩]])).issued
      = initialSync.issued
    ∧ (fire (mutateAll initialSync
        ([] ++ [[⟨"a", "1", "Chicken Breast", 1, 165, 31, 0, 3.6, 0⟩]]))).issued
      = initialSync.issued ++ [[⟨"a", "1", "Chicken Breast", 1, 165, 31, 0, 3.6, 0⟩]]
    ∧ (fire (mutateAll initialSync
        ([] ++ [[⟨"a", "1", "Chicken Breast", 1, 165, 31, 0, 3.6, 0⟩]]))).lastSync
      = some [⟨"a", "1", "Chicken Breast", 1, 165, 31, 0, 3.6, 0⟩] :=
  claim_C4_debounce_coalescing initialSync []
    [⟨"a", "1", "Chicken Breast", 1, 165, 31, 0, 3.6, 0⟩]
    (by simp) (by simp [initialSync])

/-- Claim C4 counterexample: two rapid mutations - adding an entry, then
deleting it again so the final store is empty - produce zero outbound
writes once the window elapses, not exactly one: the effect returns early
on an empty log list, so no write carrying the final state is issued. -/
theorem claim_C4_counterexample :
    (fire (mutateAll initialSync
        [[⟨"a", "1", "Chicken Breast", 1, 165, 31, 0, 3.6, 0⟩], []])).issued = []
    ∧ (fire (mutateAll initialSync
        [[⟨"a", "1", "Chicken Breast", 1, 165, 31, 0, 3.6, 0⟩], []])).issued.length ≠ 1 := by
  have h : fire (mutateAll initialSync
      [[⟨"a", "1", "Chicken Breast", 1, 165, 31, 0, 3.6, 0⟩], []])
      = { pending := none, lastSync := none, issued := [], acked := [] } := by
    simp [mutateAll, mutate, fire, initialSync]
  rw [h]
  exact ⟨rfl, by simp⟩

/-- Claim C5 amended: the stored fingerprint is updated at the moment the
debounce timer fires, immediately before the write is dispatched and
without awaiting any acknowledgement: firing moves the pending payload
into lastSyncRef and onto the issued list while the acknowledged list is
unchanged, so the fingerprint is set while its write is still in flight. -/
theorem claim_C5_fingerprint_at_fire (s : SyncState) (l : List FoodLog)
    (h : s.pending = some l) :
    (fire s).lastSync = some l
    ∧ (fire s).issued = s.issued ++ [l]
    ∧ (fire s).acked = s.acked := by
  unfold fire
  rw [h]
  exact ⟨rfl, rfl, rfl⟩

/-- Witness for claim C5 amended after one mutation from the initial state. -/
theorem claim_C5_witness :
    (fire (mutate initialSync [⟨"a", "1", "Chicken Breast", 1, 165, 31, 0, 3.6, 0⟩])).lastSync
      = some [⟨"a", "1", "Chicken Breast", 1, 165, 31, 0, 3.6, 0⟩]
    ∧ (fire (mutate initialSync [⟨"a", "1", "Chicken Breast", 1, 165, 31, 0, 3.6, 0⟩])).issued
      = (mutate initialSync [⟨"a", "1", "Chicken Breast", 1, 165, 31, 0, 3.6, 0⟩]).issued
        ++ [[⟨"a", "1", "Chicken Breast", 1, 165, 31, 0, 3.6, 0⟩]]
    ∧ (fire (mutate initialSync [⟨"a", "1", "Chicken Breast", 1, 165, 31, 0, 3.6, 0⟩])).acked
      = (mutate initialSync [⟨"a", "1", "Chicken Breast", 1, 165, 31, 0, 3.6, 0⟩]).acked :=
  claim_C5_fingerprint_at_fire
    (mutate initialSync [⟨"a", "1", "Chicken Breast", 1, 165, 31, 0, 3.6, 0⟩])
    [⟨"a", "1", "Chicken Breast", 1, 165, 31, 0, 3.6, 0⟩]
    (by simp [mutate, initialSync])

/-- Claim C5 counterexample: after one mutation and one timer firing, the
stored fingerprint already names the dispatched payload while the
acknowledged list is still empty - the fingerprint was set for a write
that has not completed, so it is not updated only after acknowledgement. -/
theorem claim_C5_counterexample :
    (fire (mutate initialSync [⟨"a", "1", "Chicken Breast", 1, 165, 31, 0, 3.6, 0⟩])).lastSync
      = some [⟨"a", "1", "Chicken Breast", 1, 165, 31, 0, 3.6, 0⟩]
    ∧ (fire (mutate initialSync [⟨"a", "1", "Chicken Breast", 1, 165, 31, 0, 3.6, 0⟩])).acked
      = [] := by
  have hp : (mutate initialSync [⟨"a", "1", "Chicken Breast", 1, 165, 31, 0, 3.6, 0⟩]).pending
      = some [⟨"a", "1", "Chicken Breast", 1, 165, 31, 0, 3.6, 0⟩] := by
    simp [mutate, initialSync]
  constructor
  · unfold fire
    rw [hp]
  · unfold fire
    rw [hp]
    simp [mutate, initialSync]

/-- A request dispatched to the Apps Script endpoint (one fetch call). -/
structure SheetRequest where
  action : String
  date : String
deriving DecidableEq

/-- The deployment URL hardcoded into the app at mount
(App.tsx Google-Sheets variant, line 36). -/
def deployedUrl : String :=
  "https://script.google.com/macros/s/AKfycbyAdCA_O1UHdCU3l-yukuXZNDXEZE98pNzl0vQXoBQp85p8sYlpNSmnJziQx6xMn9k4/exec"

/-- isConfigured (googleSheetsService.ts lines 326-328): true iff a
deployment URL has been set; the empty string is the unconfigured state. -/
def isConfigured (url : String) : Bool := url != ""

/-- The payload of a per-date remote response (googleSheetsService.ts,
interface SyncData). -/
structure SyncData where
  date : String
  foodLogs : List FoodLog
  totals : Totals
deriving DecidableEq

/-- What the per-date GET can produce as seen by loadDailyData: the fetch
can throw, the JSON parse can throw, or the body parses and either carries
an error field or the data.  A body that parses to a value lacking the
expected fields is outside this typed model; the truthiness checks in the
component handle that case. -/
inductive RemoteResponse where
  | networkFailure
  | unparsable
  | payload (hasError : Bool) (d : SyncData)

/-- loadDailyData (googleSheetsService.ts lines 243-267): null and no
request when unconfigured; otherwise one GET request; a thrown fetch or
parse error is caught and yields null, a response with an error field
yields null, and otherwise the parsed data is returned.  The model is a
total function, so no exception ever propagates to the caller. -/
def loadDailyData (url : String) (date : String) (r : RemoteResponse) :
    Option SyncData × List SheetRequest :=
  if url = "" then (none, [])
  else
    match r with
    | .networkFailure => (none, [⟨"loadDailyData", date⟩])
    | .unparsable => (none, [⟨"loadDailyData", date⟩])
    | .payload true _ => (none, [⟨"loadDailyData", date⟩])
    | .payload false d => (some d, [⟨"loadDailyData", date⟩])

/-- saveDailyData (googleSheetsService.ts lines 45-75): false and no
request when unconfigured; otherwise one POST request, returning true when
the fetch resolves and false when it throws (the error is caught). -/
def saveDailyData (url : String) (date : String) (foodLogs : List FoodLog)
    (totals : Totals) (fetchOk : Bool) : Bool × List SheetRequest :=
  if url = "" then (false, [])
  else if fetchOk then (true, [⟨"saveDailyData", date⟩])
  else (false, [⟨"saveDailyData", date⟩])

/-- The per-entry conversion applied to loaded sheet rows (App.tsx
Google-Sheets variant, lines 51-61): the foodId is replaced by the marker
value imported; the other fields carry over. -/
def convertSheetLog (log : FoodLog) : FoodLog := { log with foodId := "imported" }

/-- The setLogs decision of loadFromSheets (App.tsx Google-Sheets variant,
lines 42-75): a non-null response with a non-empty foodLogs list replaces
the store with the converted entries; anything else clears the store. -/
def loadFromSheetsUpdate (_prev : List FoodLog) (data : Option SyncData) :
    List FoodLog :=
  match data with
  | some d => if d.foodLogs ≠ [] then d.foodLogs.map convertSheetLog else []
  | none => []

/-- The setLogs decision of loadLogs (App.tsx Firebase variant, lines
52-63): the fetched list on success, and the empty list when the fetch
throws - the catch branch clears the store. -/
def loadLogsUpdate (_prev : List FoodLog) (r : Option (List FoodLog)) :
    List FoodLog :=
  match r with
  | some logs => logs
  | none => []

/-- Claim C7: a failing per-date remote load is non-fatal and leaves the
local store empty for that date, whatever the store held before: in the
sheets variant the failure is caught inside loadDailyData, which returns
null, and the component then clears the store; in the Firebase variant the
catch around getLogsByDate clears the store directly.  Both paths log the
error; logging is not modelled. -/
theorem claim_C7_load_failure_empty (prev : List FoodLog) (date : String) :
    (loadDailyData deployedUrl date RemoteResponse.networkFailure).1 = none
    ∧ loadFromSheetsUpdate prev
        (loadDailyData deployedUrl date RemoteResponse.networkFailure).1 = []
    ∧ loadLogsUpdate prev none = [] := by
  have hurl : ¬(deployedUrl = "") := by decide
  refine ⟨?_, ?_, rfl⟩
  · simp [loadDailyData, hurl]
  · simp [loadDailyData, hurl, loadFromSheetsUpdate]

/-- Claim C9: with the service configured, an unparsable or error-bearing
per-date response is treated as no data: loadDailyData returns null and
the component falls back to the empty store.  loadDailyData is total, so
no exception propagates to its caller. -/
theorem claim_C9_malformed_no_data (date : String) (prev : List FoodLog)
    (r : RemoteResponse)
    (h : r = RemoteResponse.unparsable ∨ r = RemoteResponse.networkFailure
      ∨ ∃ d, r = RemoteResponse.payload true d) :
    (loadDailyData deployedUrl date r).1 = none
    ∧ loadFromSheetsUpdate prev (loadDailyData deployedUrl date r).1 = [] := by
  have hurl : ¬(deployedUrl = "") := by decide
  rcases h with h | h | ⟨d, h⟩ <;> subst h <;>
    simp [loadDailyData, hurl, loadFromSheetsUpdate]

/-- Witness for claim C9 at an unparsable response. -/
theorem claim_C9_witness :
    (loadDailyData deployedUrl "2025-01-01" RemoteResponse.unparsable).1 = none
    ∧ loadFromSheetsUpdate []
        (loadDailyData deployedUrl "2025-01-01" RemoteResponse.unparsable).1 = [] :=
  claim_C9_malformed_no_data "2025-01-01" [] RemoteResponse.unparsable (Or.inl rfl)

/-- Claim C10: with no deployment URL configured, saveDailyData returns
false and loadDailyData returns null, and neither issues any request.
Both are pure functions of their inputs, so the local state passed to them
is unchanged. -/
theorem claim_C10_unconfigured (url date : String) (logs : List FoodLog)
    (t : Totals) (fetchOk : Bool) (r : RemoteResponse) (h : url = "") :
    saveDailyData url date logs t fetchOk = (false, [])
    ∧ loadDailyData url date r = (none, []) := by
  subst h
  exact ⟨by simp [saveDailyData], by simp [loadDailyData]⟩

/-- Witness for claim C10 at the empty URL. -/
theorem claim_C10_witness :
    saveDailyData "" "2025-01-01" [] ⟨0, 0, 0, 0⟩ true = (false, [])
    ∧ loadDailyData "" "2025-01-01" RemoteResponse.networkFailure = (none, []) :=
  claim_C10_unconfigured "" "2025-01-01" [] ⟨0, 0, 0, 0⟩ true
    RemoteResponse.networkFailure rfl

/-- Day index in UTC of a timestamp given in whole minutes since the
epoch: the date portion of toISOString, which the todaysLogs filter
(App.tsx lines 162-165) applies to entry timestamps and goToToday
(App.tsx line 181) applies to the current time. -/
def utcDayOf (t : ℕ) : ℕ := t / 1440

/-- Day index in IST (UTC+5:30, an offset of 330 minutes) of a timestamp:
the date computed by getCurrentDateIST (timezone.ts lines 11-15), which
initializes selectedDate (App.tsx line 32). -/
def istDayOf (t : ℕ) : ℕ := (t + 330) / 1440

/-- Claim C8 counterexample: at 20:00 UTC of day 0 (minute 1200), the
todaysLogs filter assigns an entry to UTC day 0 while getCurrentDateIST
yields day 1: the date an entry is filed under and the selected date it is
compared against are computed in two different timezones, so no single
fixed reference timezone is used everywhere. -/
theorem claim_C8_counterexample :
    utcDayOf 1200 = 0 ∧ istDayOf 1200 = 1 ∧ utcDayOf 1200 ≠ istDayOf 1200 := by
  decide

/-- Claim C8 amended: each entry belongs to exactly one calendar date, the
UTC date portion of its timestamp as computed by the todaysLogs filter,
but the initially selected date is computed in IST; the two conventions
agree exactly for timestamps in the first 18.5 hours (1110 minutes) of a
UTC day and disagree for the remaining 5.5 hours. -/
theorem claim_C8_amended (t : ℕ) :
    istDayOf t = utcDayOf t ↔ t % 1440 < 1110 := by
  unfold istDayOf utcDayOf
  omega
